import Mathlib

/-!
Verification of the reply-correlation and timeout subsystem of
`expo-watch-connectivity` (iOS module `ExpoWatchConnectivityModule.swift`).

The subsystem keeps two dictionaries of pending reply handlers keyed by a
UUID string (`pendingMessageReplies : [String: ([String: Any]) -> Void]`,
`pendingDataReplies : [String: (Data) -> Void]`), both guarded by a single
`NSLock` (`replyLock`).  Inbound dispatchers (`dispatchMessageReceived`,
`dispatchMessageDataReceived`) register a handler under a fresh UUID,
attach the UUID to the event payload as `replyId`, and schedule a removal
of the entry 30 seconds later.  The bridge functions `replyToMessage` and
`replyToMessageData` remove the handler for a given id and invoke it with
the supplied payload.

Modelling choices, each traceable to the source:
* `[String: Any]` payloads never have their contents inspected by this
  subsystem, so a structured payload is modelled as an association list of
  string keys and string values (`Dict`).
* Handlers are opaque one-shot closures; we model a handler as an opaque
  token (`Callback := Nat`) and record each invocation `handler(payload)`
  in an append-only invocation log carried by the state, so that
  "the callback was invoked exactly once with `p`" is an assertion about
  the log.
* Swift `Dictionary` is modelled as an association list; assignment
  `dict[k] = v` is `insertKey` (overwrite), `removeValue(forKey:)` is
  `lookupKey` plus `eraseKey`.
* The Swift bridge functions return `Void`; the `Bool` returned by the
  model is the fulfillment result the spec calls `consumed` — `true`
  exactly when `removeValue` found a handler and the handler was invoked
  (the `if let handler = ...` branch ran).
* Each `DispatchQueue.main.asyncAfter(deadline: .now() + 30)` closure is a
  scheduled timer; the state carries the queue of scheduled, not yet fired
  timers as pairs `(replyId, fireTime)`.  `fireMsgTimer` / `fireDataTimer`
  are the closure bodies (they remove the map entry for their id and
  nothing else — no callback runs, no error is synthesized).
  `fireDueTimers st t` runs every timer whose deadline has been reached by
  time `t`; `timedReplyToMessage` models a fulfill issued at time `t`,
  after all timers due by `t` have fired.
* `UUID().uuidString` is an OS random source; it is modelled as an
  environment-supplied token (`freshId` argument of the dispatchers).
  The registry performs no collision handling of its own.
* `Data(base64Encoded:)` / `base64EncodedString()` are modelled by an
  executable strict base64 decoder/encoder over byte lists.
-/

namespace WatchConnectivity

/-- A structured payload (`[String: Any]`): the registry never inspects the
values, so they are modelled as strings. -/
abbrev Dict := List (String × String)

/-- A raw-bytes payload (`Data`): a list of byte values. -/
abbrev Bytes := List Nat

/-- An opaque reply-handler closure, identified by a token. -/
abbrev Callback := Nat

/-- One recorded invocation of a pending reply handler. -/
inductive CallbackCall where
  | msg (cb : Callback) (payload : Dict)
  | data (cb : Callback) (payload : Bytes)
  deriving DecidableEq

/-- State of the module's reply-correlation subsystem: the two pending-reply
dictionaries, the queues of scheduled expiry timers, and the invocation log
observing every handler call. -/
structure ModuleState where
  pendingMessageReplies : List (String × Callback)
  pendingDataReplies : List (String × Callback)
  msgTimers : List (String × Nat)
  dataTimers : List (String × Nat)
  log : List CallbackCall
  deriving DecidableEq

/-- The fixed expiry delay: `.now() + 30` seconds in both dispatchers. -/
def T_EXPIRE : Nat := 30

/-- The state with no pending replies, no timers and an empty log. -/
def initialState : ModuleState :=
  { pendingMessageReplies := []
    pendingDataReplies := []
    msgTimers := []
    dataTimers := []
    log := [] }

/-- Dictionary lookup `dict[k]` on the association-list model. -/
def lookupKey {α : Type} : List (String × α) → String → Option α
  | [], _ => none
  | (k, v) :: rest, key => if k = key then some v else lookupKey rest key

/-- Dictionary removal `removeValue(forKey: key)` (the state part). -/
def eraseKey {α : Type} : List (String × α) → String → List (String × α)
  | [], _ => []
  | (k, v) :: rest, key => if k = key then rest else (k, v) :: eraseKey rest key

/-- Dictionary assignment `dict[key] = v` (set or overwrite). -/
def insertKey {α : Type} (l : List (String × α)) (key : String) (v : α) :
    List (String × α) :=
  (key, v) :: eraseKey l key

/-- Keys of the association list are pairwise distinct, as they are in a
Swift `Dictionary`. -/
abbrev NodupKeys {α : Type} (l : List (String × α)) : Prop :=
  (l.map Prod.fst).Nodup

/-- Index of a character in the standard base64 alphabet. -/
def base64Index (c : Char) : Option Nat :=
  if 'A' ≤ c ∧ c ≤ 'Z' then some (c.toNat - 65)
  else if 'a' ≤ c ∧ c ≤ 'z' then some (c.toNat - 97 + 26)
  else if '0' ≤ c ∧ c ≤ '9' then some (c.toNat - 48 + 52)
  else if c = '+' then some 62
  else if c = '/' then some 63
  else none

/-- Character of the standard base64 alphabet at a given index. -/
def base64CharOfIndex (n : Nat) : Char :=
  if n < 26 then Char.ofNat (65 + n)
  else if n < 52 then Char.ofNat (97 + (n - 26))
  else if n < 62 then Char.ofNat (48 + (n - 52))
  else if n = 62 then '+'
  else '/'

/-- Strict base64 decoding of a character list, four characters at a time;
models `Data(base64Encoded:)` returning `nil` on malformed input
(bad alphabet, bad padding, length not a multiple of four). -/
def decodeBase64Chars : List Char → Option Bytes
  | [] => some []
  | a :: b :: c :: d :: rest =>
    match base64Index a, base64Index b with
    | some i1, some i2 =>
      if c = '=' then
        if d = '=' ∧ rest = [] then some [i1 * 4 + i2 / 16] else none
      else
        match base64Index c with
        | some i3 =>
          if d = '=' then
            if rest = [] then
              some [i1 * 4 + i2 / 16, (i2 % 16) * 16 + i3 / 4]
            else none
          else
            match base64Index d with
            | some i4 =>
              match decodeBase64Chars rest with
              | some bs =>
                some ((i1 * 4 + i2 / 16) :: ((i2 % 16) * 16 + i3 / 4) ::
                      ((i3 % 4) * 64 + i4) :: bs)
              | none => none
            | none => none
        | none => none
    | _, _ => none
  | _ => none

/-- `Data(base64Encoded: s)`, as an `Option` over byte lists. -/
def decodeBase64 (s : String) : Option Bytes :=
  decodeBase64Chars s.toList

/-- Base64 encoding of a byte list, three bytes at a time. -/
def encodeBase64Chars : Bytes → List Char
  | [] => []
  | [b1] =>
    [base64CharOfIndex (b1 / 4), base64CharOfIndex ((b1 % 4) * 16), '=', '=']
  | [b1, b2] =>
    [base64CharOfIndex (b1 / 4), base64CharOfIndex ((b1 % 4) * 16 + b2 / 16),
     base64CharOfIndex ((b2 % 16) * 4), '=']
  | b1 :: b2 :: b3 :: rest =>
    base64CharOfIndex (b1 / 4) :: base64CharOfIndex ((b1 % 4) * 16 + b2 / 16) ::
    base64CharOfIndex ((b2 % 16) * 4 + b3 / 64) :: base64CharOfIndex (b3 % 64) ::
    encodeBase64Chars rest

/-- `data.base64EncodedString()`. -/
def encodeBase64 (bs : Bytes) : String :=
  String.mk (encodeBase64Chars bs)

/-- `Function("replyToMessage")`: under `replyLock`, remove the handler
stored for `replyId` in `pendingMessageReplies`; if one was present, invoke
it with `reply`.  The returned `Bool` is `true` exactly when a handler was
found and invoked (the source function itself returns `Void`; this is the
spec's `consumed` result, discarded by the bridge). -/
def replyToMessage (st : ModuleState) (replyId : String) (reply : Dict) :
    ModuleState × Bool :=
  match lookupKey st.pendingMessageReplies replyId with
  | some handler =>
    ({ st with
        pendingMessageReplies := eraseKey st.pendingMessageReplies replyId
        log := st.log ++ [CallbackCall.msg handler reply] }, true)
  | none => (st, false)

/-- `Function("replyToMessageData")`: under `replyLock`, first
`guard let data = Data(base64Encoded: base64Data) else return`, then remove
the handler stored for `replyId` in `pendingDataReplies` and, if one was
present, invoke it with the decoded bytes. -/
def replyToMessageData (st : ModuleState) (replyId : String)
    (base64Data : String) : ModuleState × Bool :=
  match decodeBase64 base64Data with
  | none => (st, false)
  | some data =>
    match lookupKey st.pendingDataReplies replyId with
    | some handler =>
      ({ st with
          pendingDataReplies := eraseKey st.pendingDataReplies replyId
          log := st.log ++ [CallbackCall.data handler data] }, true)
    | none => (st, false)

/-- The event payload of `onMessageReceived`: always a `message` field, and
an optional `replyId` field. -/
structure MessagePayload where
  message : Dict
  replyId : Option String
  deriving DecidableEq

/-- The event payload of `onMessageDataReceived`: always a base64 `data`
field, and an optional `replyId` field. -/
structure DataPayload where
  data : String
  replyId : Option String
  deriving DecidableEq

/-- `dispatchMessageReceived`: if the transport supplied a reply handler,
store it under the fresh UUID `freshId`, schedule an expiry timer for
`now + 30`, and put the id into the payload's `replyId` field; otherwise
leave the state alone and omit `replyId`.  `freshId` stands for
`UUID().uuidString`, drawn from the OS random source. -/
def dispatchMessageReceived (st : ModuleState) (message : Dict)
    (replyHandler : Option Callback) (freshId : String) (now : Nat) :
    ModuleState × MessagePayload :=
  match replyHandler with
  | some handler =>
    ({ st with
        pendingMessageReplies := insertKey st.pendingMessageReplies freshId handler
        msgTimers := st.msgTimers ++ [(freshId, now + T_EXPIRE)] },
     { message := message, replyId := some freshId })
  | none => (st, { message := message, replyId := none })

/-- `dispatchMessageDataReceived`: same as `dispatchMessageReceived`, for
the raw-bytes map; the payload carries the bytes base64-encoded. -/
def dispatchMessageDataReceived (st : ModuleState) (data : Bytes)
    (replyHandler : Option Callback) (freshId : String) (now : Nat) :
    ModuleState × DataPayload :=
  match replyHandler with
  | some handler =>
    ({ st with
        pendingDataReplies := insertKey st.pendingDataReplies freshId handler
        dataTimers := st.dataTimers ++ [(freshId, now + T_EXPIRE)] },
     { data := encodeBase64 data, replyId := some freshId })
  | none => (st, { data := encodeBase64 data, replyId := none })

/-- Body of the expiry closure scheduled by `dispatchMessageReceived`:
under `replyLock`, `pendingMessageReplies.removeValue(forKey: replyId)`,
result discarded — no handler runs, no error is synthesized. -/
def fireMsgTimer (st : ModuleState) (replyId : String) : ModuleState :=
  { st with pendingMessageReplies := eraseKey st.pendingMessageReplies replyId }

/-- Body of the expiry closure scheduled by `dispatchMessageDataReceived`. -/
def fireDataTimer (st : ModuleState) (replyId : String) : ModuleState :=
  { st with pendingDataReplies := eraseKey st.pendingDataReplies replyId }

/-- Whether some scheduled timer for key `k` is due at time `t`. -/
def dueKey (timers : List (String × Nat)) (t : Nat) (k : String) : Bool :=
  timers.any fun q => decide (q.1 = k) && decide (q.2 ≤ t)

/-- Run every scheduled expiry closure whose deadline has been reached by
time `t`: each such closure erases its id from its map; the fired timers
leave the queue. -/
def fireDueTimers (st : ModuleState) (t : Nat) : ModuleState :=
  { st with
    pendingMessageReplies :=
      st.pendingMessageReplies.filter fun p => ! dueKey st.msgTimers t p.1
    pendingDataReplies :=
      st.pendingDataReplies.filter fun p => ! dueKey st.dataTimers t p.1
    msgTimers := st.msgTimers.filter fun q => decide (t < q.2)
    dataTimers := st.dataTimers.filter fun q => decide (t < q.2) }

/-- A `replyToMessage` issued at time `t`: every timer due by `t` has
already fired. -/
def timedReplyToMessage (st : ModuleState) (t : Nat) (replyId : String)
    (reply : Dict) : ModuleState × Bool :=
  replyToMessage (fireDueTimers st t) replyId reply

/-- A `replyToMessageData` issued at time `t`: every timer due by `t` has
already fired. -/
def timedReplyToMessageData (st : ModuleState) (t : Nat) (replyId : String)
    (base64Data : String) : ModuleState × Bool :=
  replyToMessageData (fireDueTimers st t) replyId base64Data

/-- Fold `dispatchMessageReceived` with a reply handler over a list of
`(freshId, handler)` registrations, collecting the `replyId` each event
payload carries. -/
def registerAll (now : Nat) : ModuleState → List (String × Callback) →
    ModuleState × List String
  | st, [] => (st, [])
  | st, (fid, cb) :: rest =>
    let r := dispatchMessageReceived st [] (some cb) fid now
    let r2 := registerAll now r.1 rest
    (r2.1, r.2.replyId.toList ++ r2.2)

/-- Modelled from the spec: `cancelAll()` is not present in the source
(§4.1 and §9 of the spec flag it as absent from the minimal source design
and required of a reimplementation).  Per the spec it removes all entries,
cancelling their timers, without invoking any callback. -/
def cancelAll (st : ModuleState) : ModuleState :=
  { st with
    pendingMessageReplies := []
    pendingDataReplies := []
    msgTimers := []
    dataTimers := [] }

/-- A small concrete state used to instantiate theorems: one pending
structured entry `"m" ↦ handler 5` and one pending raw-bytes entry
`"x" ↦ handler 7`, each with its scheduled expiry timer. -/
def wSt : ModuleState :=
  { pendingMessageReplies := [("m", 5)]
    pendingDataReplies := [("x", 7)]
    msgTimers := [("m", 30)]
    dataTimers := [("x", 30)]
    log := [] }

/-! ## Association-list and timer lemmas -/

/-- Erasing one key leaves lookups of every other key unchanged. -/
theorem lookupKey_eraseKey_ne {α : Type} (l : List (String × α)) (x y : String)
    (h : y ≠ x) : lookupKey (eraseKey l x) y = lookupKey l y := by
  induction l with
  | nil => rfl
  | cons p rest ih =>
    obtain ⟨k, v⟩ := p
    by_cases hk : k = x
    · subst hk
      simp [eraseKey, lookupKey, Ne.symm h]
    · simp [eraseKey, lookupKey, hk, ih]

/-- A key absent from the key list looks up to `none`. -/
theorem lookupKey_eq_none_of_not_mem {α : Type} (l : List (String × α))
    (x : String) (h : x ∉ l.map Prod.fst) : lookupKey l x = none := by
  induction l with
  | nil => rfl
  | cons p rest ih =>
    obtain ⟨k, v⟩ := p
    simp only [List.map_cons, List.mem_cons, not_or] at h
    simp only [lookupKey]
    rw [if_neg fun hkx => h.1 hkx.symm, ih h.2]

/-- With pairwise-distinct keys, the erased key is gone. -/
theorem lookupKey_eraseKey_self {α : Type} (l : List (String × α)) (x : String)
    (h : NodupKeys l) : lookupKey (eraseKey l x) x = none := by
  induction l with
  | nil => rfl
  | cons p rest ih =>
    obtain ⟨k, v⟩ := p
    simp only [NodupKeys, List.map_cons, List.nodup_cons] at h
    by_cases hk : k = x
    · subst hk
      simp only [eraseKey, if_pos rfl]
      exact lookupKey_eq_none_of_not_mem rest k h.1
    · simp only [eraseKey, if_neg hk, lookupKey, if_neg hk]
      exact ih h.2

/-- Erasing a key that does not look up is a no-op. -/
theorem eraseKey_of_lookup_none {α : Type} (l : List (String × α)) (x : String)
    (h : lookupKey l x = none) : eraseKey l x = l := by
  induction l with
  | nil => rfl
  | cons p rest ih =>
    obtain ⟨k, v⟩ := p
    simp only [lookupKey] at h
    by_cases hk : k = x
    · simp [hk] at h
    · simp only [eraseKey, if_neg hk]
      rw [ih (by simpa [hk] using h)]

/-- Looking up in a list filtered by a predicate on keys. -/
theorem lookupKey_filter {α : Type} (l : List (String × α)) (f : String → Bool)
    (x : String) :
    lookupKey (l.filter fun p => f p.1) x =
      if f x = true then lookupKey l x else none := by
  induction l with
  | nil => cases hf : f x <;> simp [lookupKey, hf]
  | cons p rest ih =>
    obtain ⟨k, v⟩ := p
    by_cases hk : k = x
    · subst hk
      cases hf : f k <;> simp [List.filter_cons, hf, lookupKey, ih]
    · cases hf : f k <;> simp [List.filter_cons, hf, lookupKey, hk, ih]

/-- Lookup in the structured map after all due timers have fired. -/
theorem fireDueTimers_lookup_msg (st : ModuleState) (t : Nat) (x : String) :
    lookupKey (fireDueTimers st t).pendingMessageReplies x =
      if dueKey st.msgTimers t x = true then none
      else lookupKey st.pendingMessageReplies x := by
  have h := lookupKey_filter st.pendingMessageReplies
      (fun k => ! dueKey st.msgTimers t k) x
  cases hdk : dueKey st.msgTimers t x <;> simp [hdk] at h <;>
    simpa [fireDueTimers, hdk] using h

/-- Lookup in the raw-bytes map after all due timers have fired. -/
theorem fireDueTimers_lookup_data (st : ModuleState) (t : Nat) (x : String) :
    lookupKey (fireDueTimers st t).pendingDataReplies x =
      if dueKey st.dataTimers t x = true then none
      else lookupKey st.pendingDataReplies x := by
  have h := lookupKey_filter st.pendingDataReplies
      (fun k => ! dueKey st.dataTimers t k) x
  cases hdk : dueKey st.dataTimers t x <;> simp [hdk] at h <;>
    simpa [fireDueTimers, hdk] using h

/-- A timer queue extended with a timer for `x` that is due at `t` makes `x` due. -/
theorem dueKey_append_due (timers : List (String × Nat)) (x : String)
    (ft t : Nat) (h : ft ≤ t) :
    dueKey (timers ++ [(x, ft)]) t x = true := by
  simp [dueKey, List.any_append, h]

/-- A timer queue holding no timer for `x`, extended with a timer for `x`
that is not yet due at `t`, does not make `x` due. -/
theorem dueKey_append_not_due (timers : List (String × Nat)) (x : String)
    (ft t : Nat) (hfresh : ∀ q ∈ timers, q.1 ≠ x) (h : ¬ ft ≤ t) :
    dueKey (timers ++ [(x, ft)]) t x = false := by
  simp only [dueKey, List.any_eq_false, List.mem_append, List.mem_singleton,
    Bool.and_eq_true, decide_eq_true_eq, not_and]
  intro q hq hqx
  rcases hq with hq | hq
  · exact absurd hqx (hfresh q hq)
  · subst hq
    simpa using h

/-- The payloads returned by `registerAll` carry exactly the ids drawn from
the UUID source, in order. -/
theorem registerAll_snd (now : Nat) (regs : List (String × Callback)) :
    ∀ st : ModuleState, (registerAll now st regs).2 = regs.map Prod.fst := by
  induction regs with
  | nil => intro st; rfl
  | cons r rest ih =>
    intro st
    obtain ⟨fid, cb⟩ := r
    simp [registerAll, dispatchMessageReceived, ih]

/-! ## Unfolding lemmas for the bridge operations -/

/-- `replyToMessage` when a handler is pending under the id. -/
theorem replyToMessage_found (st : ModuleState) (x : String) (cb : Callback)
    (p : Dict) (h : lookupKey st.pendingMessageReplies x = some cb) :
    replyToMessage st x p =
      ({ st with
          pendingMessageReplies := eraseKey st.pendingMessageReplies x
          log := st.log ++ [CallbackCall.msg cb p] }, true) := by
  simp [replyToMessage, h]

/-- `replyToMessage` when no handler is pending under the id. -/
theorem replyToMessage_not_found (st : ModuleState) (x : String) (p : Dict)
    (h : lookupKey st.pendingMessageReplies x = none) :
    replyToMessage st x p = (st, false) := by
  simp [replyToMessage, h]

/-- `replyToMessageData` when the payload decodes and a handler is pending. -/
theorem replyToMessageData_found (st : ModuleState) (x : String)
    (cb : Callback) (s : String) (d : Bytes) (hdec : decodeBase64 s = some d)
    (h : lookupKey st.pendingDataReplies x = some cb) :
    replyToMessageData st x s =
      ({ st with
          pendingDataReplies := eraseKey st.pendingDataReplies x
          log := st.log ++ [CallbackCall.data cb d] }, true) := by
  simp [replyToMessageData, hdec, h]

/-- `replyToMessageData` when no handler is pending under the id. -/
theorem replyToMessageData_not_found (st : ModuleState) (x : String)
    (s : String) (h : lookupKey st.pendingDataReplies x = none) :
    replyToMessageData st x s = (st, false) := by
  cases hdec : decodeBase64 s with
  | none => simp [replyToMessageData, hdec]
  | some d => simp [replyToMessageData, hdec, h]

/-- `replyToMessageData` when the payload is not valid base64: the guard
returns before the map is consulted. -/
theorem replyToMessageData_invalid (st : ModuleState) (x : String)
    (s : String) (h : decodeBase64 s = none) :
    replyToMessageData st x s = (st, false) := by
  simp [replyToMessageData, h]

/-! ## Claims -/

/-- Claim C1: for every registry state and every pending id, a fulfill
issued while the entry is still pending removes the entry, invokes its
callback exactly once with the payload, and returns true — for structured
entries via `replyToMessage` and for raw-bytes entries via
`replyToMessageData` (whose payload arrives base64-encoded). -/
theorem claim_C1_fulfill_pending (st : ModuleState) (x y : String)
    (cbm cbd : Callback) (p : Dict) (s : String) (d : Bytes)
    (hnm : NodupKeys st.pendingMessageReplies)
    (hnd : NodupKeys st.pendingDataReplies)
    (hx : lookupKey st.pendingMessageReplies x = some cbm)
    (hy : lookupKey st.pendingDataReplies y = some cbd)
    (hs : decodeBase64 s = some d) :
    (replyToMessage st x p).2 = true ∧
    (replyToMessage st x p).1.log = st.log ++ [CallbackCall.msg cbm p] ∧
    lookupKey (replyToMessage st x p).1.pendingMessageReplies x = none ∧
    (replyToMessageData st y s).2 = true ∧
    (replyToMessageData st y s).1.log = st.log ++ [CallbackCall.data cbd d] ∧
    lookupKey (replyToMessageData st y s).1.pendingDataReplies y = none := by
  rw [replyToMessage_found st x cbm p hx, replyToMessageData_found st y cbd s d hs hy]
  exact ⟨rfl, rfl, lookupKey_eraseKey_self _ _ hnm, rfl, rfl,
    lookupKey_eraseKey_self _ _ hnd⟩

/-- Witness for C1 at the concrete state `wSt`. -/
theorem claim_C1_witness :
    (replyToMessage wSt "m" [("k", "v")]).2 = true ∧
    (replyToMessage wSt "m" [("k", "v")]).1.log =
      wSt.log ++ [CallbackCall.msg 5 [("k", "v")]] ∧
    lookupKey (replyToMessage wSt "m" [("k", "v")]).1.pendingMessageReplies "m" = none ∧
    (replyToMessageData wSt "x" "AQI=").2 = true ∧
    (replyToMessageData wSt "x" "AQI=").1.log =
      wSt.log ++ [CallbackCall.data 7 [1, 2]] ∧
    lookupKey (replyToMessageData wSt "x" "AQI=").1.pendingDataReplies "x" = none :=
  claim_C1_fulfill_pending wSt "m" "x" 5 7 [("k", "v")] "AQI=" [1, 2]
    (by decide) (by decide) (by decide) (by decide) (by decide)

/-- Claim C2: fulfilling an id absent from the registry returns false,
invokes no callback and leaves the whole state unchanged; of two successive
fulfills of the same registered id, the first returns true and invokes the
callback once, the second returns false, invokes nothing and changes
nothing. -/
theorem claim_C2_absent_id (st : ModuleState) (x y z : String)
    (cb : Callback) (p q : Dict) (s : String)
    (hx : lookupKey st.pendingMessageReplies x = none)
    (hy : lookupKey st.pendingDataReplies y = none)
    (hnm : NodupKeys st.pendingMessageReplies)
    (hz : lookupKey st.pendingMessageReplies z = some cb) :
    replyToMessage st x p = (st, false) ∧
    replyToMessageData st y s = (st, false) ∧
    (replyToMessage st z p).2 = true ∧
    (replyToMessage st z p).1.log = st.log ++ [CallbackCall.msg cb p] ∧
    replyToMessage (replyToMessage st z p).1 z q =
      ((replyToMessage st z p).1, false) := by
  have habs : lookupKey (replyToMessage st z p).1.pendingMessageReplies z = none := by
    rw [replyToMessage_found st z cb p hz]
    exact lookupKey_eraseKey_self _ _ hnm
  refine ⟨replyToMessage_not_found st x p hx,
    replyToMessageData_not_found st y s hy, ?_, ?_, ?_⟩
  · rw [replyToMessage_found st z cb p hz]
  · rw [replyToMessage_found st z cb p hz]
  · exact replyToMessage_not_found _ z q habs

/-- Witness for C2 at the concrete state `wSt`. -/
theorem claim_C2_witness :
    replyToMessage wSt "x" [("k", "v")] = (wSt, false) ∧
    replyToMessageData wSt "m" "AQI=" = (wSt, false) ∧
    (replyToMessage wSt "m" [("k", "v")]).2 = true ∧
    (replyToMessage wSt "m" [("k", "v")]).1.log =
      wSt.log ++ [CallbackCall.msg 5 [("k", "v")]] ∧
    replyToMessage (replyToMessage wSt "m" [("k", "v")]).1 "m" [("k2", "v2")] =
      ((replyToMessage wSt "m" [("k", "v")]).1, false) :=
  claim_C2_absent_id wSt "x" "m" "m" 5 [("k", "v")] [("k2", "v2")] "AQI="
    (by decide) (by decide) (by decide) (by decide)

/-- Claim C6 (counterexample to the claim as stated): at a state holding a
pending raw-bytes entry under id `"x"`, fulfilling `"x"` with a payload of
the wrong kind — a structured payload, through `replyToMessage` — does not
deliver the payload to the entry's callback: no callback is invoked (the
log stays empty), the call returns false, and the entry stays pending. -/
theorem claim_C6_counterexample :
    lookupKey wSt.pendingDataReplies "x" = some 7 ∧
    (replyToMessage wSt "x" [("k", "v")]).2 = false ∧
    (replyToMessage wSt "x" [("k", "v")]).1.log = [] ∧
    lookupKey (replyToMessage wSt "x" [("k", "v")]).1.pendingDataReplies "x" =
      some 7 := by
  decide

/-- Claim C6 (amended): structured and raw-bytes registrations live in
separate maps and each fulfill entry point consults only its own kind's
map, so a fulfill through the wrong-kind entry point never reaches the
entry — it is a no-op that returns false and leaves the entry pending;
within the matching entry point the registry performs no payload
validation and delivers the payload as-is to the callback. -/
theorem claim_C6_amended (st : ModuleState) (x y z : String) (cb : Callback)
    (p q : Dict) (s : String)
    (hx : lookupKey st.pendingMessageReplies x = none)
    (hy : lookupKey st.pendingDataReplies y = none)
    (hz : lookupKey st.pendingMessageReplies z = some cb) :
    replyToMessage st x p = (st, false) ∧
    replyToMessageData st y s = (st, false) ∧
    (replyToMessage st z q).2 = true ∧
    (replyToMessage st z q).1.log = st.log ++ [CallbackCall.msg cb q] := by
  refine ⟨replyToMessage_not_found st x p hx,
    replyToMessageData_not_found st y s hy, ?_, ?_⟩
  · rw [replyToMessage_found st z cb q hz]
  · rw [replyToMessage_found st z cb q hz]

/-- Witness for the amended C6 at the concrete state `wSt`: `"x"` is
pending as raw-bytes but absent from the structured map, `"m"` is pending
as structured but absent from the raw-bytes map. -/
theorem claim_C6_witness :
    replyToMessage wSt "x" [("a", "b")] = (wSt, false) ∧
    replyToMessageData wSt "m" "AQI=" = (wSt, false) ∧
    (replyToMessage wSt "m" [("a", "b")]).2 = true ∧
    (replyToMessage wSt "m" [("a", "b")]).1.log =
      wSt.log ++ [CallbackCall.msg 5 [("a", "b")]] :=
  claim_C6_amended wSt "x" "m" "m" 5 [("a", "b")] [("a", "b")] "AQI="
    (by decide) (by decide) (by decide)

/-- Claim C9: a `replyToMessageData` call whose payload is not valid base64
invokes no callback and does not consume the entry — the whole state is
unchanged and the entry stays pending — and a later `replyToMessageData`
with a valid base64 payload still delivers the decoded bytes to the
entry's callback. -/
theorem claim_C9_invalid_base64 (st : ModuleState) (x : String)
    (cb : Callback) (s t : String) (d : Bytes)
    (hs : decodeBase64 s = none)
    (hx : lookupKey st.pendingDataReplies x = some cb)
    (ht : decodeBase64 t = some d) :
    replyToMessageData st x s = (st, false) ∧
    lookupKey (replyToMessageData st x s).1.pendingDataReplies x = some cb ∧
    (replyToMessageData st x t).2 = true ∧
    (replyToMessageData st x t).1.log = st.log ++ [CallbackCall.data cb d] := by
  have h1 := replyToMessageData_invalid st x s hs
  refine ⟨h1, ?_, ?_, ?_⟩
  · rw [h1]; exact hx
  · rw [replyToMessageData_found st x cb t d ht hx]
  · rw [replyToMessageData_found st x cb t d ht hx]

/-- Witness for C9 at the concrete state `wSt`: `"!!!"` is not valid
base64, `"AQI="` decodes to the bytes `[1, 2]`. -/
theorem claim_C9_witness :
    replyToMessageData wSt "x" "!!!" = (wSt, false) ∧
    lookupKey (replyToMessageData wSt "x" "!!!").1.pendingDataReplies "x" = some 7 ∧
    (replyToMessageData wSt "x" "AQI=").2 = true ∧
    (replyToMessageData wSt "x" "AQI=").1.log =
      wSt.log ++ [CallbackCall.data 7 [1, 2]] :=
  claim_C9_invalid_base64 wSt "x" 7 "!!!" "AQI=" [1, 2]
    (by decide) (by decide) (by decide)

/-- Claim C10 (frame): a fulfill addressed to id `x` — successful or not —
and the expiry closure for `x` remove at most `x`'s entry: every other id's
binding in both maps is unchanged, the other map is untouched, and the
timer queues (the recorded deadlines) are untouched. -/
theorem claim_C10_frame (st : ModuleState) (x y : String) (p : Dict)
    (s : String) (hxy : y ≠ x) :
    lookupKey (replyToMessage st x p).1.pendingMessageReplies y =
      lookupKey st.pendingMessageReplies y ∧
    (replyToMessage st x p).1.pendingDataReplies = st.pendingDataReplies ∧
    (replyToMessage st x p).1.msgTimers = st.msgTimers ∧
    (replyToMessage st x p).1.dataTimers = st.dataTimers ∧
    lookupKey (replyToMessageData st x s).1.pendingDataReplies y =
      lookupKey st.pendingDataReplies y ∧
    (replyToMessageData st x s).1.pendingMessageReplies = st.pendingMessageReplies ∧
    (replyToMessageData st x s).1.msgTimers = st.msgTimers ∧
    (replyToMessageData st x s).1.dataTimers = st.dataTimers ∧
    lookupKey (fireMsgTimer st x).pendingMessageReplies y =
      lookupKey st.pendingMessageReplies y ∧
    (fireMsgTimer st x).pendingDataReplies = st.pendingDataReplies ∧
    lookupKey (fireDataTimer st x).pendingDataReplies y =
      lookupKey st.pendingDataReplies y ∧
    (fireDataTimer st x).pendingMessageReplies = st.pendingMessageReplies := by
  have em := lookupKey_eraseKey_ne st.pendingMessageReplies x y hxy
  have ed := lookupKey_eraseKey_ne st.pendingDataReplies x y hxy
  rcases hm : lookupKey st.pendingMessageReplies x with _ | cbm <;>
  rcases hd : lookupKey st.pendingDataReplies x with _ | cbd <;>
  rcases hdec : decodeBase64 s with _ | bs <;>
    simp [replyToMessage, replyToMessageData, fireMsgTimer, fireDataTimer,
      hm, hd, hdec, em, ed]

/-- Witness for C10 at the concrete state `wSt`, with the untouched id
`"m"` observed across operations addressed to `"x"`. -/
theorem claim_C10_witness :
    lookupKey (replyToMessage wSt "x" [("k", "v")]).1.pendingMessageReplies "m" =
      lookupKey wSt.pendingMessageReplies "m" ∧
    (replyToMessage wSt "x" [("k", "v")]).1.pendingDataReplies = wSt.pendingDataReplies ∧
    (replyToMessage wSt "x" [("k", "v")]).1.msgTimers = wSt.msgTimers ∧
    (replyToMessage wSt "x" [("k", "v")]).1.dataTimers = wSt.dataTimers ∧
    lookupKey (replyToMessageData wSt "x" "AQI=").1.pendingDataReplies "m" =
      lookupKey wSt.pendingDataReplies "m" ∧
    (replyToMessageData wSt "x" "AQI=").1.pendingMessageReplies = wSt.pendingMessageReplies ∧
    (replyToMessageData wSt "x" "AQI=").1.msgTimers = wSt.msgTimers ∧
    (replyToMessageData wSt "x" "AQI=").1.dataTimers = wSt.dataTimers ∧
    lookupKey (fireMsgTimer wSt "x").pendingMessageReplies "m" =
      lookupKey wSt.pendingMessageReplies "m" ∧
    (fireMsgTimer wSt "x").pendingDataReplies = wSt.pendingDataReplies ∧
    lookupKey (fireDataTimer wSt "x").pendingDataReplies "m" =
      lookupKey wSt.pendingDataReplies "m" ∧
    (fireDataTimer wSt "x").pendingMessageReplies = wSt.pendingMessageReplies :=
  claim_C10_frame wSt "x" "m" [("k", "v")] "AQI=" (by decide)

/-- Claim C5: `replyLock` makes the fulfill body and the expiry closure
atomic, so a race between them for the same id is one of the two serial
orders. In the order where fulfill runs first it succeeds and the expiry
closure then observes the entry as absent and changes nothing; in the
order where the expiry closure runs first it consumes the entry and the
fulfill then observes it as absent, returns false and changes nothing.
In both orders the callback is invoked at most once. -/
theorem claim_C5_race (st : ModuleState) (x : String) (cb : Callback)
    (p : Dict)
    (hnm : NodupKeys st.pendingMessageReplies)
    (hx : lookupKey st.pendingMessageReplies x = some cb) :
    (replyToMessage st x p).2 = true ∧
    (replyToMessage st x p).1.log = st.log ++ [CallbackCall.msg cb p] ∧
    fireMsgTimer (replyToMessage st x p).1 x = (replyToMessage st x p).1 ∧
    lookupKey (fireMsgTimer (replyToMessage st x p).1 x).pendingMessageReplies x =
      none ∧
    (fireMsgTimer st x).log = st.log ∧
    replyToMessage (fireMsgTimer st x) x p = (fireMsgTimer st x, false) ∧
    lookupKey (replyToMessage (fireMsgTimer st x) x p).1.pendingMessageReplies x =
      none := by
  have hrm := replyToMessage_found st x cb p hx
  have habs : lookupKey (replyToMessage st x p).1.pendingMessageReplies x = none := by
    rw [hrm]
    exact lookupKey_eraseKey_self _ _ hnm
  have habs2 : lookupKey (fireMsgTimer st x).pendingMessageReplies x = none :=
    lookupKey_eraseKey_self _ _ hnm
  have hid : fireMsgTimer (replyToMessage st x p).1 x = (replyToMessage st x p).1 := by
    show ({ (replyToMessage st x p).1 with
        pendingMessageReplies :=
          eraseKey (replyToMessage st x p).1.pendingMessageReplies x }) = _
    rw [eraseKey_of_lookup_none _ _ habs]
  have hnf := replyToMessage_not_found (fireMsgTimer st x) x p habs2
  refine ⟨by rw [hrm], by rw [hrm], hid, ?_, rfl, hnf, ?_⟩
  · rw [hid]
    exact habs
  · rw [hnf]
    exact habs2

/-- Witness for C5 at the concrete state `wSt`. -/
theorem claim_C5_witness :
    (replyToMessage wSt "m" [("k", "v")]).2 = true ∧
    (replyToMessage wSt "m" [("k", "v")]).1.log =
      wSt.log ++ [CallbackCall.msg 5 [("k", "v")]] ∧
    fireMsgTimer (replyToMessage wSt "m" [("k", "v")]).1 "m" =
      (replyToMessage wSt "m" [("k", "v")]).1 ∧
    lookupKey (fireMsgTimer (replyToMessage wSt "m" [("k", "v")]).1 "m").pendingMessageReplies
      "m" = none ∧
    (fireMsgTimer wSt "m").log = wSt.log ∧
    replyToMessage (fireMsgTimer wSt "m") "m" [("k", "v")] =
      (fireMsgTimer wSt "m", false) ∧
    lookupKey (replyToMessage (fireMsgTimer wSt "m") "m" [("k", "v")]).1.pendingMessageReplies
      "m" = none :=
  claim_C5_race wSt "m" 5 [("k", "v")] (by decide) (by decide)

/-- Claim C7: for every inbound message, the event payload carries the
freshly registered correlation id in its `replyId` field exactly when the
transport supplied a reply handler, and the field is absent otherwise —
for both the structured and the raw-bytes dispatcher. -/
theorem claim_C7_replyId_field (st : ModuleState) (msg : Dict) (bs : Bytes)
    (cb : Callback) (fid : String) (now : Nat) :
    (dispatchMessageReceived st msg (some cb) fid now).2.replyId = some fid ∧
    lookupKey (dispatchMessageReceived st msg (some cb) fid now).1.pendingMessageReplies
      fid = some cb ∧
    (dispatchMessageReceived st msg none fid now).2.replyId = none ∧
    (dispatchMessageReceived st msg none fid now).1 = st ∧
    (dispatchMessageDataReceived st bs (some cb) fid now).2.replyId = some fid ∧
    lookupKey (dispatchMessageDataReceived st bs (some cb) fid now).1.pendingDataReplies
      fid = some cb ∧
    (dispatchMessageDataReceived st bs none fid now).2.replyId = none ∧
    (dispatchMessageDataReceived st bs none fid now).1 = st := by
  refine ⟨rfl, ?_, rfl, rfl, rfl, ?_, rfl, rfl⟩ <;>
    simp [dispatchMessageReceived, dispatchMessageDataReceived, insertKey,
      lookupKey]

/-- Claim C8: `cancelAll` invokes zero callbacks (the log is unchanged),
cancels all timers and leaves the registry empty; every subsequent fulfill
returns false. -/
theorem claim_C8_cancelAll (st : ModuleState) (x : String) (p : Dict)
    (s : String) :
    (cancelAll st).log = st.log ∧
    (cancelAll st).pendingMessageReplies = [] ∧
    (cancelAll st).pendingDataReplies = [] ∧
    (cancelAll st).msgTimers = [] ∧
    (cancelAll st).dataTimers = [] ∧
    replyToMessage (cancelAll st) x p = (cancelAll st, false) ∧
    replyToMessageData (cancelAll st) x s = (cancelAll st, false) := by
  refine ⟨rfl, rfl, rfl, rfl, rfl, ?_, ?_⟩
  · exact replyToMessage_not_found (cancelAll st) x p rfl
  · exact replyToMessageData_not_found (cancelAll st) x s rfl

/-- Claim C4 (counterexample to the claim as stated): the correlation id is
`UUID().uuidString`, a draw from the OS random source, and the registry
performs no collision handling of its own; with the source returning the
token `"a"` twice, two registrations return the same id, so the returned
ids are not pairwise distinct. -/
theorem claim_C4_counterexample :
    (registerAll 0 initialState [("a", 0), ("a", 1)]).2 = ["a", "a"] ∧
    ¬ (registerAll 0 initialState [("a", 0), ("a", 1)]).2.Nodup := by
  constructor
  · rfl
  · decide

/-- Claim C4 (amended): the registry returns exactly the tokens drawn from
the UUID source, in order, adding no dedup or reuse bookkeeping of its
own; whenever the drawn tokens are pairwise distinct — as random 128-bit
UUIDs are up to negligible collision probability — the returned ids are
pairwise distinct, and in particular no id removed by an earlier
fulfillment or expiry is returned for a later registration. -/
theorem claim_C4_unique_ids (st : ModuleState) (now : Nat)
    (regs : List (String × Callback)) (h : (regs.map Prod.fst).Nodup) :
    (registerAll now st regs).2 = regs.map Prod.fst ∧
    (registerAll now st regs).2.Nodup := by
  refine ⟨registerAll_snd now regs st, ?_⟩
  rw [registerAll_snd now regs st]
  exact h

/-- Witness for the amended C4 on a two-element registration sequence. -/
theorem claim_C4_witness :
    (registerAll 0 initialState [("a", 0), ("b", 1)]).2 = ["a", "b"] ∧
    (registerAll 0 initialState [("a", 0), ("b", 1)]).2.Nodup :=
  claim_C4_unique_ids initialState 0 [("a", 0), ("b", 1)] (by decide)

/-- Expiry scenario for a structured entry: `st1` is the state right after
registering handler `cb` under `x` at time `T0`, over a base state whose
timer queue holds no timer for `x`. -/
theorem msg_expiry_core (st1 st : ModuleState) (x : String) (cb : Callback)
    (p : Dict) (T0 t1 t2 : Nat)
    (hmap : st1.pendingMessageReplies = insertKey st.pendingMessageReplies x cb)
    (htim : st1.msgTimers = st.msgTimers ++ [(x, T0 + T_EXPIRE)])
    (hlog : st1.log = st.log)
    (hf : ∀ q ∈ st.msgTimers, q.1 ≠ x)
    (ht1 : t1 < T0 + T_EXPIRE) (ht2 : T0 + T_EXPIRE ≤ t2) :
    lookupKey (fireDueTimers st1 t2).pendingMessageReplies x = none ∧
    (fireDueTimers st1 t2).log = st.log ∧
    (timedReplyToMessage st1 t1 x p).2 = true ∧
    (timedReplyToMessage st1 t1 x p).1.log = st.log ++ [CallbackCall.msg cb p] ∧
    (timedReplyToMessage st1 t2 x p).2 = false ∧
    (timedReplyToMessage st1 t2 x p).1.log = st.log := by
  have hdue2 : dueKey st1.msgTimers t2 x = true := by
    rw [htim]
    exact dueKey_append_due _ _ _ _ ht2
  have hdue1 : dueKey st1.msgTimers t1 x = false := by
    rw [htim]
    exact dueKey_append_not_due _ _ _ _ hf (Nat.not_le.mpr ht1)
  have hlu2 : lookupKey (fireDueTimers st1 t2).pendingMessageReplies x = none := by
    rw [fireDueTimers_lookup_msg, hdue2]
    simp
  have hlu1 : lookupKey (fireDueTimers st1 t1).pendingMessageReplies x = some cb := by
    rw [fireDueTimers_lookup_msg, hdue1]
    simp [hmap, insertKey, lookupKey]
  have hrm := replyToMessage_found (fireDueTimers st1 t1) x cb p hlu1
  have hnf := replyToMessage_not_found (fireDueTimers st1 t2) x p hlu2
  refine ⟨hlu2, hlog, ?_, ?_, ?_, ?_⟩
  · simp only [timedReplyToMessage]
    rw [hrm]
  · simp only [timedReplyToMessage]
    rw [hrm]
    show st1.log ++ [CallbackCall.msg cb p] = st.log ++ [CallbackCall.msg cb p]
    rw [hlog]
  · simp only [timedReplyToMessage]
    rw [hnf]
  · simp only [timedReplyToMessage]
    rw [hnf]
    exact hlog

/-- Expiry scenario for a raw-bytes entry, mirroring `msg_expiry_core`. -/
theorem data_expiry_core (st1 st : ModuleState) (y : String) (cb : Callback)
    (s : String) (d : Bytes) (T0 t1 t2 : Nat)
    (hmap : st1.pendingDataReplies = insertKey st.pendingDataReplies y cb)
    (htim : st1.dataTimers = st.dataTimers ++ [(y, T0 + T_EXPIRE)])
    (hlog : st1.log = st.log)
    (hs : decodeBase64 s = some d)
    (hf : ∀ q ∈ st.dataTimers, q.1 ≠ y)
    (ht1 : t1 < T0 + T_EXPIRE) (ht2 : T0 + T_EXPIRE ≤ t2) :
    lookupKey (fireDueTimers st1 t2).pendingDataReplies y = none ∧
    (fireDueTimers st1 t2).log = st.log ∧
    (timedReplyToMessageData st1 t1 y s).2 = true ∧
    (timedReplyToMessageData st1 t1 y s).1.log = st.log ++ [CallbackCall.data cb d] ∧
    (timedReplyToMessageData st1 t2 y s).2 = false ∧
    (timedReplyToMessageData st1 t2 y s).1.log = st.log := by
  have hdue2 : dueKey st1.dataTimers t2 y = true := by
    rw [htim]
    exact dueKey_append_due _ _ _ _ ht2
  have hdue1 : dueKey st1.dataTimers t1 y = false := by
    rw [htim]
    exact dueKey_append_not_due _ _ _ _ hf (Nat.not_le.mpr ht1)
  have hlu2 : lookupKey (fireDueTimers st1 t2).pendingDataReplies y = none := by
    rw [fireDueTimers_lookup_data, hdue2]
    simp
  have hlu1 : lookupKey (fireDueTimers st1 t1).pendingDataReplies y = some cb := by
    rw [fireDueTimers_lookup_data, hdue1]
    simp [hmap, insertKey, lookupKey]
  have hrm := replyToMessageData_found (fireDueTimers st1 t1) y cb s d hs hlu1
  have hnf := replyToMessageData_not_found (fireDueTimers st1 t2) y s hlu2
  refine ⟨hlu2, hlog, ?_, ?_, ?_, ?_⟩
  · simp only [timedReplyToMessageData]
    rw [hrm]
  · simp only [timedReplyToMessageData]
    rw [hrm]
    show st1.log ++ [CallbackCall.data cb d] = st.log ++ [CallbackCall.data cb d]
    rw [hlog]
  · simp only [timedReplyToMessageData]
    rw [hnf]
  · simp only [timedReplyToMessageData]
    rw [hnf]
    exact hlog

/-- Claim C3: an entry registered at `T0` and neither fulfilled nor
cancelled is removed by the expiry action at its deadline `T0 + 30`
without its callback being invoked and without any error being
synthesized, so from the deadline on the callback is unreachable; a
fulfill issued at a time `t1` before the deadline succeeds (returns true,
invoking the callback once), one issued at a time `t2` at or past the
deadline fails (returns false, invoking nothing) — for both the structured
and the raw-bytes registration. -/
theorem claim_C3_expiry (st : ModuleState) (x y : String) (cbm cbd : Callback)
    (msg p : Dict) (bs d : Bytes) (s : String) (T0 t1 t2 : Nat)
    (hfm : ∀ q ∈ st.msgTimers, q.1 ≠ x)
    (hfd : ∀ q ∈ st.dataTimers, q.1 ≠ y)
    (hs : decodeBase64 s = some d)
    (ht1 : t1 < T0 + T_EXPIRE)
    (ht2 : T0 + T_EXPIRE ≤ t2) :
    lookupKey (fireDueTimers (dispatchMessageReceived st msg (some cbm) x T0).1 t2).pendingMessageReplies x = none ∧
    (fireDueTimers (dispatchMessageReceived st msg (some cbm) x T0).1 t2).log = st.log ∧
    (timedReplyToMessage (dispatchMessageReceived st msg (some cbm) x T0).1 t1 x p).2 = true ∧
    (timedReplyToMessage (dispatchMessageReceived st msg (some cbm) x T0).1 t1 x p).1.log = st.log ++ [CallbackCall.msg cbm p] ∧
    (timedReplyToMessage (dispatchMessageReceived st msg (some cbm) x T0).1 t2 x p).2 = false ∧
    (timedReplyToMessage (dispatchMessageReceived st msg (some cbm) x T0).1 t2 x p).1.log = st.log ∧
    lookupKey (fireDueTimers (dispatchMessageDataReceived st bs (some cbd) y T0).1 t2).pendingDataReplies y = none ∧
    (fireDueTimers (dispatchMessageDataReceived st bs (some cbd) y T0).1 t2).log = st.log ∧
    (timedReplyToMessageData (dispatchMessageDataReceived st bs (some cbd) y T0).1 t1 y s).2 = true ∧
    (timedReplyToMessageData (dispatchMessageDataReceived st bs (some cbd) y T0).1 t1 y s).1.log = st.log ++ [CallbackCall.data cbd d] ∧
    (timedReplyToMessageData (dispatchMessageDataReceived st bs (some cbd) y T0).1 t2 y s).2 = false ∧
    (timedReplyToMessageData (dispatchMessageDataReceived st bs (some cbd) y T0).1 t2 y s).1.log = st.log := by
  have hm := msg_expiry_core (dispatchMessageReceived st msg (some cbm) x T0).1
    st x cbm p T0 t1 t2 rfl rfl rfl hfm ht1 ht2
  have hd := data_expiry_core (dispatchMessageDataReceived st bs (some cbd) y T0).1
    st y cbd s d T0 t1 t2 rfl rfl rfl hs hfd ht1 ht2
  exact ⟨hm.1, hm.2.1, hm.2.2.1, hm.2.2.2.1, hm.2.2.2.2.1, hm.2.2.2.2.2,
    hd.1, hd.2.1, hd.2.2.1, hd.2.2.2.1, hd.2.2.2.2.1, hd.2.2.2.2.2⟩

/-- Witness for C3: registration at time 0, a fulfill at time 29 succeeds,
the expiry fires at time 30, a fulfill at time 30 fails. -/
theorem claim_C3_witness :
    lookupKey (fireDueTimers (dispatchMessageReceived initialState [] (some 1) "a" 0).1 30).pendingMessageReplies "a" = none ∧
    (fireDueTimers (dispatchMessageReceived initialState [] (some 1) "a" 0).1 30).log = initialState.log ∧
    (timedReplyToMessage (dispatchMessageReceived initialState [] (some 1) "a" 0).1 29 "a" [("k", "v")]).2 = true ∧
    (timedReplyToMessage (dispatchMessageReceived initialState [] (some 1) "a" 0).1 29 "a" [("k", "v")]).1.log = initialState.log ++ [CallbackCall.msg 1 [("k", "v")]] ∧
    (timedReplyToMessage (dispatchMessageReceived initialState [] (some 1) "a" 0).1 30 "a" [("k", "v")]).2 = false ∧
    (timedReplyToMessage (dispatchMessageReceived initialState [] (some 1) "a" 0).1 30 "a" [("k", "v")]).1.log = initialState.log ∧
    lookupKey (fireDueTimers (dispatchMessageDataReceived initialState [3] (some 2) "b" 0).1 30).pendingDataReplies "b" = none ∧
    (fireDueTimers (dispatchMessageDataReceived initialState [3] (some 2) "b" 0).1 30).log = initialState.log ∧
    (timedReplyToMessageData (dispatchMessageDataReceived initialState [3] (some 2) "b" 0).1 29 "b" "AQI=").2 = true ∧
    (timedReplyToMessageData (dispatchMessageDataReceived initialState [3] (some 2) "b" 0).1 29 "b" "AQI=").1.log = initialState.log ++ [CallbackCall.data 2 [1, 2]] ∧
    (timedReplyToMessageData (dispatchMessageDataReceived initialState [3] (some 2) "b" 0).1 30 "b" "AQI=").2 = false ∧
    (timedReplyToMessageData (dispatchMessageDataReceived initialState [3] (some 2) "b" 0).1 30 "b" "AQI=").1.log = initialState.log :=
  claim_C3_expiry initialState "a" "b" 1 2 [] [("k", "v")] [3] [1, 2] "AQI="
    0 29 30 (by decide) (by decide) (by decide) (by decide) (by decide)

end WatchConnectivity
